import Mathlib

/-!
Shallow embedding of `Source/CesiumRuntime/Public/Cesium3DTileset.h` and
`Source/CesiumRuntime/Private/Tests/CesiumLoadTestCore.h` from the
cesium-unreal plugin, together with theorems settling the specification
claims about this excerpt.

Conventions of the embedding:
- C++ `double`/`float` values are modelled as `ℚ` (every default literal in
  the excerpt is exactly representable);
- `int32`/`int64` are modelled as `Int`, `uint32_t` as `Nat`;
- pointers and object references (`TSoftObjectPtr`, `TUniquePtr`, raw
  pointers) are modelled as `Option Nat`, where `Nat` is an object
  identity and `none` is a null pointer;
- `FString` is `String`, `TMap`/`TArray`/`std::vector` are `List`;
- values of external engine struct types that the excerpt only stores and
  never inspects (`FBodyInstance`, `FCustomDepthParameters`,
  `FCesiumPointCloudShading`, `glm::dmat4`, time points) are modelled as
  opaque identities (`Nat`).
-/

namespace CesiumUnreal

/-- `EComponentMobility::Type` from the host engine (the excerpt uses
`Static` as the default of `Mobility_DEPRECATED` and reads
`RootComponent->Mobility`). -/
inductive EComponentMobility where
  | Static
  | Stationary
  | Movable
deriving DecidableEq, Repr

/-- `ETilesetSource` (Cesium3DTileset.h lines 70-87). -/
inductive ETilesetSource where
  | FromCesiumIon
  | FromUrl
  | FromEllipsoid
deriving DecidableEq, Repr

/-- `EApplyDpiScaling` (Cesium3DTileset.h line 89-90). -/
inductive EApplyDpiScaling where
  | Yes
  | No
  | UseProjectDefault
deriving DecidableEq, Repr

/-- `ERuntimeVirtualTextureMainPassType` from the host engine; the excerpt
uses `Exclusive` as a default. -/
inductive ERuntimeVirtualTextureMainPassType where
  | Never
  | Exclusive
  | Always
deriving DecidableEq, Repr

/-- The part of the host engine's `USceneComponent` that the excerpt
reads: `GetMobility` returns `this->RootComponent->Mobility`. -/
structure USceneComponent where
  Mobility : EComponentMobility
deriving DecidableEq, Repr

/-- The state of an `ACesium3DTileset` actor: every member variable
declared in the excerpt, in declaration order. `RootComponent` is the
inherited `AActor` member that `GetMobility` dereferences. -/
structure ACesium3DTileset where
  RootComponent : USceneComponent
  Root : Option Nat
  Mobility_DEPRECATED : EComponentMobility
  Georeference : Option Nat
  ResolvedGeoreference : Option Nat
  CreditSystem : Option Nat
  ResolvedCreditSystem : Option Nat
  CameraManager : Option Nat
  ResolvedCameraManager : Option Nat
  BoundingVolumePoolComponent : Option Nat
  _cesiumViewExtension : Option Nat
  ShowCreditsOnScreen : Bool
  MaximumScreenSpaceError : ℚ
  ApplyDpiScaling : EApplyDpiScaling
  PreloadAncestors : Bool
  PreloadSiblings : Bool
  ForbidHoles : Bool
  MaximumSimultaneousTileLoads : Int
  MaximumCachedBytes : Int
  LoadingDescendantLimit : Int
  EnableFrustumCulling : Bool
  EnableFogCulling : Bool
  EnforceCulledScreenSpaceError : Bool
  CulledScreenSpaceError : ℚ
  CanEnableOcclusionCulling : Bool
  EnableOcclusionCulling : Bool
  OcclusionPoolSize : Int
  DelayRefinementForOcclusion : Bool
  SuspendUpdate : Bool
  UpdateInEditor : Bool
  LogSelectionStats : Bool
  LogSharedAssetStats : Bool
  DrawTileInfo : Bool
  BodyInstance : Nat
  UseLodTransitions : Bool
  LodTransitionLength : ℚ
  LoadProgress : ℚ
  TilesetSource : ETilesetSource
  Url : String
  IonAssetID : Int
  IonAccessToken : String
  IonAssetEndpointUrl_DEPRECATED : String
  CesiumIonServer : Option Nat
  RequestHeaders : List (String × String)
  CreatePhysicsMeshes : Bool
  CreateNavCollision : Bool
  AlwaysIncludeTangents : Bool
  GenerateSmoothNormals : Bool
  EnableWaterMask : Bool
  IgnoreKhrMaterialsUnlit : Bool
  Material : Option Nat
  TranslucentMaterial : Option Nat
  WaterMaterial : Option Nat
  CustomDepthParameters : Nat
  PointCloudShading : Nat
  RuntimeVirtualTextures : List Nat
  VirtualTextureRenderPassType : ERuntimeVirtualTextureMainPassType
  TranslucencySortPriority : Int
  PlatformName : String
  _pTileset : Option Nat
  _featuresMetadataDescription : Option Nat
  _metadataDescription_DEPRECATED : Option Nat
  _lastTilesRendered : Nat
  _lastWorkerThreadTileLoadQueueLength : Nat
  _lastMainThreadTileLoadQueueLength : Nat
  _lastTilesVisited : Nat
  _lastCulledTilesVisited : Nat
  _lastTilesCulled : Nat
  _lastTilesOccluded : Nat
  _lastTilesWaitingForOcclusionResults : Nat
  _lastMaxDepthVisited : Nat
  _startTime : Nat
  _captureMovieMode : Bool
  _beforeMoviePreloadAncestors : Bool
  _beforeMoviePreloadSiblings : Bool
  _beforeMovieLoadingDescendantLimit : Int
  _beforeMovieUseLodTransitions : Bool
  _scaleUsingDPI : Bool
  _tilesToHideNextFrame : List Nat
  _tilesetsBeingDestroyed : Int
deriving Repr

/-- The state of a newly constructed `ACesium3DTileset`: every member with
an in-class initializer in the header holds that initializer's value;
members without one hold the zero-initialized value of their type (the
host engine zero-initializes reflected properties). -/
def ACesium3DTileset.init : ACesium3DTileset where
  RootComponent := { Mobility := EComponentMobility.Static }
  Root := none
  Mobility_DEPRECATED := EComponentMobility.Static
  Georeference := none
  ResolvedGeoreference := none
  CreditSystem := none
  ResolvedCreditSystem := none
  CameraManager := none
  ResolvedCameraManager := none
  BoundingVolumePoolComponent := none
  _cesiumViewExtension := none
  ShowCreditsOnScreen := false
  MaximumScreenSpaceError := 16
  ApplyDpiScaling := EApplyDpiScaling.UseProjectDefault
  PreloadAncestors := true
  PreloadSiblings := true
  ForbidHoles := false
  MaximumSimultaneousTileLoads := 20
  MaximumCachedBytes := 256 * 1024 * 1024
  LoadingDescendantLimit := 20
  EnableFrustumCulling := true
  EnableFogCulling := true
  EnforceCulledScreenSpaceError := false
  CulledScreenSpaceError := 64
  CanEnableOcclusionCulling := false
  EnableOcclusionCulling := true
  OcclusionPoolSize := 500
  DelayRefinementForOcclusion := true
  SuspendUpdate := false
  UpdateInEditor := true
  LogSelectionStats := false
  LogSharedAssetStats := false
  DrawTileInfo := false
  BodyInstance := 0
  UseLodTransitions := false
  LodTransitionLength := 1 / 2
  LoadProgress := 0
  TilesetSource := ETilesetSource.FromCesiumIon
  Url := ""
  IonAssetID := 0
  IonAccessToken := ""
  IonAssetEndpointUrl_DEPRECATED := ""
  CesiumIonServer := none
  RequestHeaders := []
  CreatePhysicsMeshes := true
  CreateNavCollision := false
  AlwaysIncludeTangents := false
  GenerateSmoothNormals := false
  EnableWaterMask := false
  IgnoreKhrMaterialsUnlit := false
  Material := none
  TranslucentMaterial := none
  WaterMaterial := none
  CustomDepthParameters := 0
  PointCloudShading := 0
  RuntimeVirtualTextures := []
  VirtualTextureRenderPassType := ERuntimeVirtualTextureMainPassType.Exclusive
  TranslucencySortPriority := 0
  PlatformName := ""
  _pTileset := none
  _featuresMetadataDescription := none
  _metadataDescription_DEPRECATED := none
  _lastTilesRendered := 0
  _lastWorkerThreadTileLoadQueueLength := 0
  _lastMainThreadTileLoadQueueLength := 0
  _lastTilesVisited := 0
  _lastCulledTilesVisited := 0
  _lastTilesCulled := 0
  _lastTilesOccluded := 0
  _lastTilesWaitingForOcclusionResults := 0
  _lastMaxDepthVisited := 0
  _startTime := 0
  _captureMovieMode := false
  _beforeMoviePreloadAncestors := false
  _beforeMoviePreloadSiblings := false
  _beforeMovieLoadingDescendantLimit := 0
  _beforeMovieUseLodTransitions := false
  _scaleUsingDPI := false
  _tilesToHideNextFrame := []
  _tilesetsBeingDestroyed := 0

/-!
Semantic embedding of every member function that is defined with a body in
the excerpt. Each C++ body is a single `return` statement reading a stored
member (or a member of the referenced root component); a method is
modelled as a function from the actor state to the returned value paired
with the actor state after the call.
-/

def ACesium3DTileset.GetMobility (s : ACesium3DTileset) :
    EComponentMobility × ACesium3DTileset :=
  (s.RootComponent.Mobility, s)

def ACesium3DTileset.GetLoadProgress (s : ACesium3DTileset) :
    ℚ × ACesium3DTileset :=
  (s.LoadProgress, s)

def ACesium3DTileset.GetUseLodTransitions (s : ACesium3DTileset) :
    Bool × ACesium3DTileset :=
  (s.UseLodTransitions, s)

def ACesium3DTileset.GetTilesetSource (s : ACesium3DTileset) :
    ETilesetSource × ACesium3DTileset :=
  (s.TilesetSource, s)

def ACesium3DTileset.GetUrl (s : ACesium3DTileset) :
    String × ACesium3DTileset :=
  (s.Url, s)

def ACesium3DTileset.GetRequestHeaders (s : ACesium3DTileset) :
    List (String × String) × ACesium3DTileset :=
  (s.RequestHeaders, s)

def ACesium3DTileset.GetIonAssetID (s : ACesium3DTileset) :
    Int × ACesium3DTileset :=
  (s.IonAssetID, s)

def ACesium3DTileset.GetIonAccessToken (s : ACesium3DTileset) :
    String × ACesium3DTileset :=
  (s.IonAccessToken, s)

def ACesium3DTileset.GetCesiumIonServer (s : ACesium3DTileset) :
    Option Nat × ACesium3DTileset :=
  (s.CesiumIonServer, s)

def ACesium3DTileset.GetRuntimeVirtualTextures (s : ACesium3DTileset) :
    List Nat × ACesium3DTileset :=
  (s.RuntimeVirtualTextures, s)

def ACesium3DTileset.GetVirtualTextureRenderPassType (s : ACesium3DTileset) :
    ERuntimeVirtualTextureMainPassType × ACesium3DTileset :=
  (s.VirtualTextureRenderPassType, s)

def ACesium3DTileset.GetTranslucencySortPriority (s : ACesium3DTileset) :
    Int × ACesium3DTileset :=
  (s.TranslucencySortPriority, s)

def ACesium3DTileset.GetMaximumScreenSpaceError (s : ACesium3DTileset) :
    ℚ × ACesium3DTileset :=
  (s.MaximumScreenSpaceError, s)

def ACesium3DTileset.GetOcclusionPoolSize (s : ACesium3DTileset) :
    Int × ACesium3DTileset :=
  (s.OcclusionPoolSize, s)

def ACesium3DTileset.GetDelayRefinementForOcclusion (s : ACesium3DTileset) :
    Bool × ACesium3DTileset :=
  (s.DelayRefinementForOcclusion, s)

def ACesium3DTileset.GetCreatePhysicsMeshes (s : ACesium3DTileset) :
    Bool × ACesium3DTileset :=
  (s.CreatePhysicsMeshes, s)

def ACesium3DTileset.GetCreateNavCollision (s : ACesium3DTileset) :
    Bool × ACesium3DTileset :=
  (s.CreateNavCollision, s)

def ACesium3DTileset.GetAlwaysIncludeTangents (s : ACesium3DTileset) :
    Bool × ACesium3DTileset :=
  (s.AlwaysIncludeTangents, s)

def ACesium3DTileset.GetGenerateSmoothNormals (s : ACesium3DTileset) :
    Bool × ACesium3DTileset :=
  (s.GenerateSmoothNormals, s)

def ACesium3DTileset.GetEnableWaterMask (s : ACesium3DTileset) :
    Bool × ACesium3DTileset :=
  (s.EnableWaterMask, s)

def ACesium3DTileset.GetIgnoreKhrMaterialsUnlit (s : ACesium3DTileset) :
    Bool × ACesium3DTileset :=
  (s.IgnoreKhrMaterialsUnlit, s)

def ACesium3DTileset.GetMaterial (s : ACesium3DTileset) :
    Option Nat × ACesium3DTileset :=
  (s.Material, s)

def ACesium3DTileset.GetTranslucentMaterial (s : ACesium3DTileset) :
    Option Nat × ACesium3DTileset :=
  (s.TranslucentMaterial, s)

def ACesium3DTileset.GetWaterMaterial (s : ACesium3DTileset) :
    Option Nat × ACesium3DTileset :=
  (s.WaterMaterial, s)

def ACesium3DTileset.GetCustomDepthParameters (s : ACesium3DTileset) :
    Nat × ACesium3DTileset :=
  (s.CustomDepthParameters, s)

def ACesium3DTileset.GetPointCloudShading (s : ACesium3DTileset) :
    Nat × ACesium3DTileset :=
  (s.PointCloudShading, s)

/-- The non-const overload `Cesium3DTilesSelection::Tileset* GetTileset()`:
returns `this->_pTileset.Get()`, the raw pointer stored in the unique
pointer. -/
def ACesium3DTileset.GetTileset (s : ACesium3DTileset) :
    Option Nat × ACesium3DTileset :=
  (s._pTileset, s)

/-- The const overload of `GetTileset`. -/
def ACesium3DTileset.GetTilesetConst (s : ACesium3DTileset) :
    Option Nat × ACesium3DTileset :=
  (s._pTileset, s)

def ACesium3DTileset.getFeaturesMetadataDescription (s : ACesium3DTileset) :
    Option Nat × ACesium3DTileset :=
  (s._featuresMetadataDescription, s)

/-!
Syntactic inventory of the excerpt `Cesium3DTileset.h`: its include
directives, the classes it forward-declares, the classes it defines, the
declared member functions of `ACesium3DTileset` (recording, for each one,
whether a body appears in the excerpt and, when it does, what that body
is), and the type of the `_pTileset` member.
-/

/-- The body of a member function defined inline in the excerpt. Every
body that is anything other than a single `return` of a stored member
would be recorded with the `algorithmicCode` constructor. -/
inductive CppBody where
  | returnField (field : String)
  | returnRootComponentField (field : String)
  | returnUniquePtrGet (field : String)
  | algorithmicCode (description : String)
deriving DecidableEq, Repr

/-- Whether an inline body merely returns a stored value. -/
def CppBody.isStoredValueReturn : CppBody → Bool
  | .algorithmicCode _ => false
  | _ => true

/-- A member function declaration of `ACesium3DTileset` as it appears in
the header: its name, const-qualification, and its body when one is given
in the excerpt (`none` when the function is only declared and its
definition lives in a translation unit outside the excerpt). -/
structure MemberFunction where
  name : String
  isConst : Bool
  bodyInExcerpt : Option CppBody
deriving DecidableEq, Repr

/-- The type of a member variable, insofar as the claims need it. -/
inductive CppMemberType where
  | uniquePtrTo (cls : String)
  | softObjectPtrTo (cls : String)
  | rawPointerTo (cls : String)
  | valueOf (cls : String)
deriving DecidableEq, Repr

/-- A member variable declaration. -/
structure MemberVariable where
  name : String
  type : CppMemberType
deriving DecidableEq, Repr

/-- The include directives of `Cesium3DTileset.h` (lines 5-28 and the
`CESIUM_DEBUG_TILE_STATES` block), in order. -/
def excerptIncludes : List String :=
  [ "Cesium3DTilesSelection/Tileset.h",
    "Cesium3DTilesSelection/ViewState.h",
    "Cesium3DTilesSelection/ViewUpdateResult.h",
    "Cesium3DTilesetLoadFailureDetails.h",
    "CesiumCreditSystem.h",
    "CesiumEncodedMetadataComponent.h",
    "CesiumFeaturesMetadataComponent.h",
    "CesiumGeoreference.h",
    "CesiumIonServer.h",
    "CesiumPointCloudShading.h",
    "CesiumSampleHeightResult.h",
    "CoreMinimal.h",
    "CustomDepthParameters.h",
    "Engine/EngineTypes.h",
    "GameFramework/Actor.h",
    "Interfaces/IHttpRequest.h",
    "PrimitiveSceneProxy.h",
    "PhysicsEngine/BodyInstance.h",
    "atomic",
    "chrono",
    "glm/mat4x4.hpp",
    "unordered_map",
    "vector",
    "Cesium3DTileset.generated.h",
    "Cesium3DTilesSelection/DebugTileStateDatabase.h" ]

/-- The classes the excerpt forward-declares (lines 34-45): declared but
given no definition. -/
def excerptForwardDeclaredClasses : List String :=
  [ "UMaterialInterface",
    "ACesiumCartographicSelection",
    "ACesiumCameraManager",
    "UCesiumBoundingVolumePoolComponent",
    "CesiumViewExtension",
    "FCesiumCamera",
    "Cesium3DTilesSelection::Tileset",
    "Cesium3DTilesSelection::TilesetView",
    "Cesium3DTilesSelection::TileOcclusionRendererProxyPool" ]

/-- The classes and enums the excerpt actually defines. -/
def excerptDefinedClasses : List String :=
  [ "ETilesetSource", "EApplyDpiScaling", "ACesium3DTileset" ]

/-- The `_pTileset` member (line 1322): a unique pointer to the external
selection library's `Tileset` class. -/
def pTilesetMember : MemberVariable :=
  { name := "_pTileset",
    type := CppMemberType.uniquePtrTo "Cesium3DTilesSelection::Tileset" }

/-- Member functions of `ACesium3DTileset` declared in the excerpt, first
quarter of the declaration order. -/
def ACesium3DTilesetMemberFunctionsA : List MemberFunction :=
  [ { name := "ACesium3DTileset", isConst := false, bodyInExcerpt := none },
    { name := "~ACesium3DTileset", isConst := false, bodyInExcerpt := none },
    { name := "GetMobility", isConst := true,
      bodyInExcerpt := some (CppBody.returnRootComponentField "Mobility") },
    { name := "SetMobility", isConst := false, bodyInExcerpt := none },
    { name := "SampleHeightMostDetailed", isConst := false,
      bodyInExcerpt := none },
    { name := "GetGeoreference", isConst := true, bodyInExcerpt := none },
    { name := "SetGeoreference", isConst := false, bodyInExcerpt := none },
    { name := "ResolveGeoreference", isConst := false, bodyInExcerpt := none },
    { name := "InvalidateResolvedGeoreference", isConst := false,
      bodyInExcerpt := none },
    { name := "GetCreditSystem", isConst := true, bodyInExcerpt := none },
    { name := "SetCreditSystem", isConst := false, bodyInExcerpt := none },
    { name := "ResolveCreditSystem", isConst := false, bodyInExcerpt := none },
    { name := "InvalidateResolvedCreditSystem", isConst := false,
      bodyInExcerpt := none },
    { name := "GetCameraManager", isConst := true, bodyInExcerpt := none },
    { name := "SetCameraManager", isConst := false, bodyInExcerpt := none },
    { name := "ResolveCameraManager", isConst := false, bodyInExcerpt := none },
    { name := "InvalidateResolvedCameraManager", isConst := false,
      bodyInExcerpt := none },
    { name := "RefreshTileset", isConst := false, bodyInExcerpt := none },
    { name := "TroubleshootToken", isConst := false, bodyInExcerpt := none },
    { name := "GetLoadProgress", isConst := true,
      bodyInExcerpt := some (CppBody.returnField "LoadProgress") },
    { name := "GetUseLodTransitions", isConst := true,
      bodyInExcerpt := some (CppBody.returnField "UseLodTransitions") },
    { name := "SetUseLodTransitions", isConst := false, bodyInExcerpt := none },
    { name := "GetTilesetSource", isConst := true,
      bodyInExcerpt := some (CppBody.returnField "TilesetSource") },
    { name := "SetTilesetSource", isConst := false, bodyInExcerpt := none },
    { name := "GetUrl", isConst := true,
      bodyInExcerpt := some (CppBody.returnField "Url") },
    { name := "SetUrl", isConst := false, bodyInExcerpt := none },
    { name := "GetRequestHeaders", isConst := true,
      bodyInExcerpt := some (CppBody.returnField "RequestHeaders") },
    { name := "SetRequestHeaders", isConst := false, bodyInExcerpt := none } ]


/-- Member functions of `ACesium3DTileset`, second quarter. -/
def ACesium3DTilesetMemberFunctionsB : List MemberFunction :=
  [ { name := "GetIonAssetID", isConst := true,
      bodyInExcerpt := some (CppBody.returnField "IonAssetID") },
    { name := "SetIonAssetID", isConst := false, bodyInExcerpt := none },
    { name := "GetIonAccessToken", isConst := true,
      bodyInExcerpt := some (CppBody.returnField "IonAccessToken") },
    { name := "SetIonAccessToken", isConst := false, bodyInExcerpt := none },
    { name := "GetCesiumIonServer", isConst := true,
      bodyInExcerpt := some (CppBody.returnField "CesiumIonServer") },
    { name := "GetRuntimeVirtualTextures", isConst := true,
      bodyInExcerpt := some (CppBody.returnField "RuntimeVirtualTextures") },
    { name := "SetRuntimeVirtualTextures", isConst := false,
      bodyInExcerpt := none },
    { name := "GetVirtualTextureRenderPassType", isConst := true,
      bodyInExcerpt :=
        some (CppBody.returnField "VirtualTextureRenderPassType") },
    { name := "GetTranslucencySortPriority", isConst := false,
      bodyInExcerpt := some (CppBody.returnField "TranslucencySortPriority") },
    { name := "SetTranslucencySortPriority", isConst := false,
      bodyInExcerpt := none },
    { name := "SetCesiumIonServer", isConst := false, bodyInExcerpt := none },
    { name := "GetMaximumScreenSpaceError", isConst := false,
      bodyInExcerpt := some (CppBody.returnField "MaximumScreenSpaceError") },
    { name := "SetMaximumScreenSpaceError", isConst := false,
      bodyInExcerpt := none },
    { name := "GetEnableOcclusionCulling", isConst := true,
      bodyInExcerpt := none },
    { name := "SetEnableOcclusionCulling", isConst := false,
      bodyInExcerpt := none },
    { name := "GetOcclusionPoolSize", isConst := true,
      bodyInExcerpt := some (CppBody.returnField "OcclusionPoolSize") },
    { name := "SetOcclusionPoolSize", isConst := false, bodyInExcerpt := none },
    { name := "GetDelayRefinementForOcclusion", isConst := true,
      bodyInExcerpt :=
        some (CppBody.returnField "DelayRefinementForOcclusion") },
    { name := "SetDelayRefinementForOcclusion", isConst := false,
      bodyInExcerpt := none },
    { name := "GetCreatePhysicsMeshes", isConst := true,
      bodyInExcerpt := some (CppBody.returnField "CreatePhysicsMeshes") },
    { name := "SetCreatePhysicsMeshes", isConst := false,
      bodyInExcerpt := none },
    { name := "GetCreateNavCollision", isConst := true,
      bodyInExcerpt := some (CppBody.returnField "CreateNavCollision") },
    { name := "SetCreateNavCollision", isConst := false,
      bodyInExcerpt := none },
    { name := "GetAlwaysIncludeTangents", isConst := true,
      bodyInExcerpt := some (CppBody.returnField "AlwaysIncludeTangents") },
    { name := "SetAlwaysIncludeTangents", isConst := false,
      bodyInExcerpt := none },
    { name := "GetGenerateSmoothNormals", isConst := true,
      bodyInExcerpt := some (CppBody.returnField "GenerateSmoothNormals") },
    { name := "SetGenerateSmoothNormals", isConst := false,
      bodyInExcerpt := none },
    { name := "GetEnableWaterMask", isConst := true,
      bodyInExcerpt := some (CppBody.returnField "EnableWaterMask") } ]


/-- Member functions of `ACesium3DTileset`, third quarter. -/
def ACesium3DTilesetMemberFunctionsC : List MemberFunction :=
  [ { name := "SetEnableWaterMask", isConst := false, bodyInExcerpt := none },
    { name := "GetIgnoreKhrMaterialsUnlit", isConst := true,
      bodyInExcerpt := some (CppBody.returnField "IgnoreKhrMaterialsUnlit") },
    { name := "SetIgnoreKhrMaterialsUnlit", isConst := false,
      bodyInExcerpt := none },
    { name := "GetMaterial", isConst := true,
      bodyInExcerpt := some (CppBody.returnField "Material") },
    { name := "SetMaterial", isConst := false, bodyInExcerpt := none },
    { name := "GetTranslucentMaterial", isConst := true,
      bodyInExcerpt := some (CppBody.returnField "TranslucentMaterial") },
    { name := "SetTranslucentMaterial", isConst := false,
      bodyInExcerpt := none },
    { name := "GetWaterMaterial", isConst := true,
      bodyInExcerpt := some (CppBody.returnField "WaterMaterial") },
    { name := "SetWaterMaterial", isConst := false, bodyInExcerpt := none },
    { name := "GetCustomDepthParameters", isConst := true,
      bodyInExcerpt := some (CppBody.returnField "CustomDepthParameters") },
    { name := "SetCustomDepthParameters", isConst := false,
      bodyInExcerpt := none },
    { name := "GetPointCloudShading", isConst := true,
      bodyInExcerpt := some (CppBody.returnField "PointCloudShading") },
    { name := "SetPointCloudShading", isConst := false,
      bodyInExcerpt := none },
    { name := "PlayMovieSequencer", isConst := false, bodyInExcerpt := none },
    { name := "StopMovieSequencer", isConst := false, bodyInExcerpt := none },
    { name := "PauseMovieSequencer", isConst := false, bodyInExcerpt := none },
    { name := "GetCesiumTilesetToUnrealRelativeWorldTransform",
      isConst := true, bodyInExcerpt := none },
    { name := "GetTileset", isConst := false,
      bodyInExcerpt := some (CppBody.returnUniquePtrGet "_pTileset") },
    { name := "GetTileset", isConst := true,
      bodyInExcerpt := some (CppBody.returnUniquePtrGet "_pTileset") },
    { name := "getFeaturesMetadataDescription", isConst := true,
      bodyInExcerpt :=
        some (CppBody.returnField "_featuresMetadataDescription") },
    { name := "ShouldTickIfViewportsOnly", isConst := true,
      bodyInExcerpt := none },
    { name := "Tick", isConst := false, bodyInExcerpt := none },
    { name := "BeginDestroy", isConst := false, bodyInExcerpt := none },
    { name := "IsReadyForFinishDestroy", isConst := false,
      bodyInExcerpt := none },
    { name := "Destroyed", isConst := false, bodyInExcerpt := none },
    { name := "EndPlay", isConst := false, bodyInExcerpt := none },
    { name := "PostLoad", isConst := false, bodyInExcerpt := none },
    { name := "Serialize", isConst := false, bodyInExcerpt := none } ]


/-- Member functions of `ACesium3DTileset`, fourth quarter. -/
def ACesium3DTilesetMemberFunctionsD : List MemberFunction :=
  [ { name := "UpdateLoadStatus", isConst := false, bodyInExcerpt := none },
    { name := "PostEditChangeProperty", isConst := false,
      bodyInExcerpt := none },
    { name := "PostEditChangeChainProperty", isConst := false,
      bodyInExcerpt := none },
    { name := "PostEditUndo", isConst := false, bodyInExcerpt := none },
    { name := "PostEditImport", isConst := false, bodyInExcerpt := none },
    { name := "CanEditChange", isConst := true, bodyInExcerpt := none },
    { name := "BeginPlay", isConst := false, bodyInExcerpt := none },
    { name := "OnConstruction", isConst := false, bodyInExcerpt := none },
    { name := "PostInitProperties", isConst := false, bodyInExcerpt := none },
    { name := "NotifyHit", isConst := false, bodyInExcerpt := none },
    { name := "LoadTileset", isConst := false, bodyInExcerpt := none },
    { name := "DestroyTileset", isConst := false, bodyInExcerpt := none },
    { name := "CreateViewStateFromViewParameters", isConst := false,
      bodyInExcerpt := none },
    { name := "GetCameras", isConst := true, bodyInExcerpt := none },
    { name := "GetPlayerCameras", isConst := true, bodyInExcerpt := none },
    { name := "GetSceneCaptures", isConst := true, bodyInExcerpt := none },
    { name := "UpdateTransformFromCesium", isConst := false,
      bodyInExcerpt := none },
    { name := "HandleOnGeoreferenceEllipsoidChanged", isConst := false,
      bodyInExcerpt := none },
    { name := "updateTilesetOptionsFromProperties", isConst := false,
      bodyInExcerpt := none },
    { name := "updateLastViewUpdateResultState", isConst := false,
      bodyInExcerpt := none },
    { name := "showTilesToRender", isConst := false, bodyInExcerpt := none },
    { name := "AddFocusViewportDelegate", isConst := false,
      bodyInExcerpt := none },
    { name := "GetEditorCameras", isConst := true, bodyInExcerpt := none },
    { name := "OnFocusEditorViewportOnThis", isConst := false,
      bodyInExcerpt := none },
    { name := "RuntimeSettingsChanged", isConst := false,
      bodyInExcerpt := none } ]

/-- Every member function of `ACesium3DTileset` declared in the excerpt,
in declaration order, with its inline body when the excerpt gives one
(split into four sub-lists to keep elaboration tractable). -/
def ACesium3DTilesetMemberFunctions : List MemberFunction :=
  ACesium3DTilesetMemberFunctionsA ++ ACesium3DTilesetMemberFunctionsB ++
    ACesium3DTilesetMemberFunctionsC ++ ACesium3DTilesetMemberFunctionsD

/-!
Operations of `ACesium3DTileset` that the excerpt only declares: their
bodies live in `Cesium3DTileset.cpp`, which is not part of the excerpt.
They are modelled from the spec, that is, from the documentation comments
the header attaches to them.
-/

/-- The part of a level (`UWorld`) that georeference resolution consults:
the first Georeference actor already in the level, if any, and the
identity of the Georeference actor that would be created if none exists. -/
structure UWorld where
  firstGeoreference : Option Nat
  freshGeoreference : Nat
deriving DecidableEq, Repr

/-- Modelled from the spec: the search-or-create step of
`ResolveGeoreference`, whose body is in `Cesium3DTileset.cpp` and absent
from the excerpt. Per the header's doc comment it "finds a Georeference in
the World and returns it, creating it if necessary". -/
def findOrCreateGeoreference (w : UWorld) : Nat :=
  match w.firstGeoreference with
  | some g => g
  | none => w.freshGeoreference

/-- Modelled from the spec: the body of `ResolveGeoreference` is in
`Cesium3DTileset.cpp` and absent from the excerpt. Per its doc comment it
"Returns the value of the Georeference property if it is set. Otherwise,
finds a Georeference in the World and returns it, creating it if
necessary. The resolved Georeference is cached so subsequent calls to this
function will return the same instance", and per the doc comment on
`ResolvedGeoreference`, "If the Georeference property is specified,
however then this property will have the same value". -/
def ACesium3DTileset.ResolveGeoreference (w : UWorld) (s : ACesium3DTileset) :
    Nat × ACesium3DTileset :=
  match s.Georeference with
  | some g => (g, { s with ResolvedGeoreference := some g })
  | none =>
    match s.ResolvedGeoreference with
    | some g => (g, s)
    | none =>
      let g := findOrCreateGeoreference w
      (g, { s with ResolvedGeoreference := some g })

/-- Modelled from the spec: the body of `InvalidateResolvedGeoreference`
is in `Cesium3DTileset.cpp` and absent from the excerpt. Per its doc
comment it invalidates "the cached resolved georeference, unsubscribing
from it and setting it to null". -/
def ACesium3DTileset.InvalidateResolvedGeoreference (s : ACesium3DTileset) :
    ACesium3DTileset :=
  { s with ResolvedGeoreference := none }

/-- The data of the external selection library's
`Cesium3DTilesSelection::ViewUpdateResult` that the excerpt consumes: the
per-frame tile lists and the counters mirrored by the actor's `_last...`
members. -/
structure ViewUpdateResult where
  tilesToRenderThisFrame : List Nat
  tilesToHideThisFrame : List Nat
  workerThreadTileLoadQueueLength : Nat
  mainThreadTileLoadQueueLength : Nat
  tilesVisited : Nat
  culledTilesVisited : Nat
  tilesCulled : Nat
  tilesOccluded : Nat
  tilesWaitingForOcclusionResults : Nat
  maxDepthVisited : Nat
deriving DecidableEq, Repr

/-- Modelled from the spec: the body of `updateLastViewUpdateResultState`
is in `Cesium3DTileset.cpp` and absent from the excerpt. Per its doc
comment it updates "all the _last... fields of this instance based on the
given ViewUpdateResult" (the log message it may print is not modelled). -/
def ACesium3DTileset.updateLastViewUpdateResultState (s : ACesium3DTileset)
    (result : ViewUpdateResult) : ACesium3DTileset :=
  { s with
    _lastTilesRendered := result.tilesToRenderThisFrame.length
    _lastWorkerThreadTileLoadQueueLength :=
      result.workerThreadTileLoadQueueLength
    _lastMainThreadTileLoadQueueLength := result.mainThreadTileLoadQueueLength
    _lastTilesVisited := result.tilesVisited
    _lastCulledTilesVisited := result.culledTilesVisited
    _lastTilesCulled := result.tilesCulled
    _lastTilesOccluded := result.tilesOccluded
    _lastTilesWaitingForOcclusionResults :=
      result.tilesWaitingForOcclusionResults
    _lastMaxDepthVisited := result.maxDepthVisited }

/-- The engine-native visual state produced for one frame: which tiles
have visual representations created for rendering in the current frame. -/
structure FrameScene where
  visibleThisFrame : List Nat
deriving DecidableEq, Repr

/-- Modelled from the spec: the body of `showTilesToRender` is in
`Cesium3DTileset.cpp` and absent from the excerpt. Per its doc comment it
"Creates the visual representations of the given tiles to be rendered in
the current frame". -/
def showTilesToRender (tiles : List Nat) : FrameScene :=
  { visibleThisFrame := tiles }

/-- The hide-with-one-frame-lag state: the tiles whose visual
representations are currently hidden, and the `_tilesToHideNextFrame`
member of the actor. -/
structure HideState where
  hidden : List Nat
  tilesToHideNextFrame : List Nat
deriving DecidableEq, Repr

/-- Modelled from the spec: the hiding step of `Tick`, whose body is in
`Cesium3DTileset.cpp` and absent from the excerpt. Per the comment on
`_tilesToHideNextFrame` (header lines 1357-1368), the tiles that are no
longer supposed to be rendered in the current frame, according to
`ViewUpdateResult::tilesToHideThisFrame`, are kept in that list and hidden
in the NEXT frame: one frame update hides the tiles recorded in the
previous frame and records this frame's `tilesToHideThisFrame`. -/
def hideTilesFrameUpdate (s : HideState) (result : ViewUpdateResult) :
    HideState :=
  { hidden := s.hidden ++ s.tilesToHideNextFrame
    tilesToHideNextFrame := result.tilesToHideThisFrame }

/-- The engine-configuration options of the external selection library
(`Cesium3DTilesSelection::TilesetOptions`) that the actor's properties are
copied into. -/
structure TilesetOptions where
  maximumScreenSpaceError : ℚ
  preloadAncestors : Bool
  preloadSiblings : Bool
  forbidHoles : Bool
  maximumSimultaneousTileLoads : Int
  maximumCachedBytes : Int
  loadingDescendantLimit : Int
  enableFrustumCulling : Bool
  enableFogCulling : Bool
  enforceCulledScreenSpaceError : Bool
  culledScreenSpaceError : ℚ
  enableOcclusionCulling : Bool
  delayRefinementForOcclusion : Bool
deriving DecidableEq, Repr

/-- Modelled from the spec: the body of
`updateTilesetOptionsFromProperties` is in `Cesium3DTileset.cpp` and
absent from the excerpt. Per its doc comment it "Writes the values of all
properties of this actor into the TilesetOptions, to take them into
account during the next traversal". -/
def ACesium3DTileset.updateTilesetOptionsFromProperties
    (s : ACesium3DTileset) : TilesetOptions :=
  { maximumScreenSpaceError := s.MaximumScreenSpaceError
    preloadAncestors := s.PreloadAncestors
    preloadSiblings := s.PreloadSiblings
    forbidHoles := s.ForbidHoles
    maximumSimultaneousTileLoads := s.MaximumSimultaneousTileLoads
    maximumCachedBytes := s.MaximumCachedBytes
    loadingDescendantLimit := s.LoadingDescendantLimit
    enableFrustumCulling := s.EnableFrustumCulling
    enableFogCulling := s.EnableFogCulling
    enforceCulledScreenSpaceError := s.EnforceCulledScreenSpaceError
    culledScreenSpaceError := s.CulledScreenSpaceError
    enableOcclusionCulling := s.EnableOcclusionCulling
    delayRefinementForOcclusion := s.DelayRefinementForOcclusion }

/-!
Embedding of `Source/CesiumRuntime/Private/Tests/CesiumLoadTestCore.h`.
`SceneGenerationContext` is declared in `CesiumSceneGeneration.h`, outside
the excerpt, and is modelled as an opaque identity; `std::function`
members are `Option`s of functions, with the empty function as `none`;
`swl::variant<int, float>` is `Int ⊕ ℚ`.
-/

abbrev SceneGenerationContext := Nat

/-- `TestPass::TestingParameter`, a `swl::variant<int, float>`. -/
abbrev TestingParameter := Int ⊕ ℚ

/-- `TestPass::SetupCallback`; the C++ callback mutates the context. -/
abbrev SetupCallback :=
  SceneGenerationContext → TestingParameter → SceneGenerationContext

/-- `TestPass::VerifyCallback`. -/
abbrev VerifyCallback :=
  SceneGenerationContext → SceneGenerationContext → TestingParameter → Bool

/-- `Cesium::TestPass` (CesiumLoadTestCore.h lines 14-33). -/
structure TestPass where
  name : String
  setupStep : Option SetupCallback
  verifyStep : Option VerifyCallback
  optionalParameter : TestingParameter
  testInProgress : Bool
  startMark : ℚ
  endMark : ℚ
  elapsedTime : ℚ
  isFastest : Bool

/-- A default-constructed `TestPass`: the four members with in-class
initializers hold those values; the rest are default-constructed (empty
string, empty callbacks, value-initialized first variant alternative
`int 0`). -/
def TestPass.init : TestPass where
  name := ""
  setupStep := none
  verifyStep := none
  optionalParameter := Sum.inl 0
  testInProgress := false
  startMark := 0
  endMark := 0
  elapsedTime := 0
  isFastest := false

/-- `Cesium::ReportCallback` (line 35). -/
abbrev ReportCallback := List TestPass → Unit

/-- The declared default value of the `optionalReportStep` parameter of
`RunLoadTest` (line 43): `= nullptr`, the empty `std::function`. -/
def RunLoadTestDefaultOptionalReportStep : Option ReportCallback := none

/-!
Theorems settling the claims.
-/

/-- C1: the 3D Tiles selection/traversal/streaming engine is not
implemented by any function defined in this excerpt: the excerpt includes
the external selection library's headers, only forward-declares (and never
defines) `Cesium3DTilesSelection::Tileset`, holds it solely through the
`_pTileset` unique pointer, and every member function that is given a body
in the excerpt merely returns a stored value. -/
theorem c1_selection_engine_is_external :
    "Cesium3DTilesSelection/Tileset.h" ∈ excerptIncludes ∧
    "Cesium3DTilesSelection/ViewState.h" ∈ excerptIncludes ∧
    "Cesium3DTilesSelection/ViewUpdateResult.h" ∈ excerptIncludes ∧
    "Cesium3DTilesSelection::Tileset" ∈ excerptForwardDeclaredClasses ∧
    "Cesium3DTilesSelection::Tileset" ∉ excerptDefinedClasses ∧
    pTilesetMember =
      { name := "_pTileset",
        type := CppMemberType.uniquePtrTo "Cesium3DTilesSelection::Tileset" } ∧
    (ACesium3DTilesetMemberFunctions.all fun f =>
        (f.bodyInExcerpt.map CppBody.isStoredValueReturn).getD true) = true := by
  refine ⟨?_, ?_, ?_, ?_, ?_, rfl, ?_⟩ <;> decide

/-- C2: a newly constructed `ACesium3DTileset` holds the declared defaults
of the engine-configuration properties, and
`updateTilesetOptionsFromProperties` copies the current values of all
these properties into the engine's `TilesetOptions`. -/
theorem c2_engine_configuration_defaults_and_options :
    ACesium3DTileset.init.MaximumScreenSpaceError = 16 ∧
    ACesium3DTileset.init.ForbidHoles = false ∧
    ACesium3DTileset.init.MaximumSimultaneousTileLoads = 20 ∧
    ACesium3DTileset.init.MaximumCachedBytes = 268435456 ∧
    ACesium3DTileset.init.LoadingDescendantLimit = 20 ∧
    ∀ s : ACesium3DTileset,
      s.updateTilesetOptionsFromProperties.maximumScreenSpaceError =
          s.MaximumScreenSpaceError ∧
      s.updateTilesetOptionsFromProperties.forbidHoles = s.ForbidHoles ∧
      s.updateTilesetOptionsFromProperties.maximumSimultaneousTileLoads =
          s.MaximumSimultaneousTileLoads ∧
      s.updateTilesetOptionsFromProperties.maximumCachedBytes =
          s.MaximumCachedBytes ∧
      s.updateTilesetOptionsFromProperties.loadingDescendantLimit =
          s.LoadingDescendantLimit :=
  ⟨rfl, rfl, rfl, by decide, rfl, fun _ => ⟨rfl, rfl, rfl, rfl, rfl⟩⟩

/-- C3: every member function defined with a body in the excerpt returns
the value of a stored property (or a member of the referenced root
component) and mutates no state of the actor: each modelled method yields
exactly the stored field paired with the unchanged state, and the
syntactic inventory records no inline body other than a stored-value
return. -/
theorem c3_inline_bodies_are_pure_getters :
    (ACesium3DTilesetMemberFunctions.all fun f =>
        (f.bodyInExcerpt.map CppBody.isStoredValueReturn).getD true) = true ∧
    ∀ s : ACesium3DTileset,
      s.GetMobility = (s.RootComponent.Mobility, s) ∧
      s.GetLoadProgress = (s.LoadProgress, s) ∧
      s.GetUseLodTransitions = (s.UseLodTransitions, s) ∧
      s.GetTilesetSource = (s.TilesetSource, s) ∧
      s.GetUrl = (s.Url, s) ∧
      s.GetRequestHeaders = (s.RequestHeaders, s) ∧
      s.GetIonAssetID = (s.IonAssetID, s) ∧
      s.GetIonAccessToken = (s.IonAccessToken, s) ∧
      s.GetCesiumIonServer = (s.CesiumIonServer, s) ∧
      s.GetRuntimeVirtualTextures = (s.RuntimeVirtualTextures, s) ∧
      s.GetVirtualTextureRenderPassType =
        (s.VirtualTextureRenderPassType, s) ∧
      s.GetTranslucencySortPriority = (s.TranslucencySortPriority, s) ∧
      s.GetMaximumScreenSpaceError = (s.MaximumScreenSpaceError, s) ∧
      s.GetOcclusionPoolSize = (s.OcclusionPoolSize, s) ∧
      s.GetDelayRefinementForOcclusion =
        (s.DelayRefinementForOcclusion, s) ∧
      s.GetCreatePhysicsMeshes = (s.CreatePhysicsMeshes, s) ∧
      s.GetCreateNavCollision = (s.CreateNavCollision, s) ∧
      s.GetAlwaysIncludeTangents = (s.AlwaysIncludeTangents, s) ∧
      s.GetGenerateSmoothNormals = (s.GenerateSmoothNormals, s) ∧
      s.GetEnableWaterMask = (s.EnableWaterMask, s) ∧
      s.GetIgnoreKhrMaterialsUnlit = (s.IgnoreKhrMaterialsUnlit, s) ∧
      s.GetMaterial = (s.Material, s) ∧
      s.GetTranslucentMaterial = (s.TranslucentMaterial, s) ∧
      s.GetWaterMaterial = (s.WaterMaterial, s) ∧
      s.GetCustomDepthParameters = (s.CustomDepthParameters, s) ∧
      s.GetPointCloudShading = (s.PointCloudShading, s) ∧
      s.GetTileset = (s._pTileset, s) ∧
      s.GetTilesetConst = (s._pTileset, s) ∧
      s.getFeaturesMetadataDescription =
        (s._featuresMetadataDescription, s) :=
  ⟨by decide,
   fun _ =>
    ⟨rfl, rfl, rfl, rfl, rfl, rfl, rfl, rfl, rfl, rfl, rfl, rfl, rfl, rfl,
     rfl, rfl, rfl, rfl, rfl, rfl, rfl, rfl, rfl, rfl, rfl, rfl, rfl, rfl,
     rfl⟩⟩

/-- C6: after each view update, `showTilesToRender` creates the visual
representations of exactly the tiles passed to it for the current frame,
and `updateLastViewUpdateResultState` records the `ViewUpdateResult`'s
counters into the corresponding `_last...` fields of the actor. -/
theorem c6_view_update_results_rendered :
    (∀ (tiles : List Nat) (t : Nat),
        t ∈ (showTilesToRender tiles).visibleThisFrame ↔ t ∈ tiles) ∧
    ∀ (s : ACesium3DTileset) (r : ViewUpdateResult),
      (s.updateLastViewUpdateResultState r)._lastTilesRendered =
          r.tilesToRenderThisFrame.length ∧
      (s.updateLastViewUpdateResultState
            r)._lastWorkerThreadTileLoadQueueLength =
          r.workerThreadTileLoadQueueLength ∧
      (s.updateLastViewUpdateResultState
            r)._lastMainThreadTileLoadQueueLength =
          r.mainThreadTileLoadQueueLength ∧
      (s.updateLastViewUpdateResultState r)._lastTilesVisited =
          r.tilesVisited ∧
      (s.updateLastViewUpdateResultState r)._lastCulledTilesVisited =
          r.culledTilesVisited ∧
      (s.updateLastViewUpdateResultState r)._lastTilesCulled =
          r.tilesCulled ∧
      (s.updateLastViewUpdateResultState r)._lastTilesOccluded =
          r.tilesOccluded ∧
      (s.updateLastViewUpdateResultState
            r)._lastTilesWaitingForOcclusionResults =
          r.tilesWaitingForOcclusionResults ∧
      (s.updateLastViewUpdateResultState r)._lastMaxDepthVisited =
          r.maxDepthVisited :=
  ⟨fun _ _ => Iff.rfl,
   fun _ _ => ⟨rfl, rfl, rfl, rfl, rfl, rfl, rfl, rfl, rfl⟩⟩

/-- C7: `ResolveGeoreference` returns the `Georeference` property when it
is set; it is idempotent (a second call, in any world, returns the same
instance and leaves the state unchanged); when neither the property nor
the cache is set it finds or creates the world's Georeference; and
`InvalidateResolvedGeoreference` sets `ResolvedGeoreference` to null. -/
theorem c7_resolve_georeference_consistent :
    (∀ (w : UWorld) (s : ACesium3DTileset) (g : Nat),
        s.Georeference = some g → (s.ResolveGeoreference w).1 = g) ∧
    (∀ (w w' : UWorld) (s : ACesium3DTileset),
        (s.ResolveGeoreference w).2.ResolveGeoreference w' =
          ((s.ResolveGeoreference w).1, (s.ResolveGeoreference w).2)) ∧
    (∀ s : ACesium3DTileset,
        s.InvalidateResolvedGeoreference.ResolvedGeoreference = none) ∧
    (∀ (w : UWorld) (s : ACesium3DTileset),
        s.Georeference = none → s.ResolvedGeoreference = none →
        (s.ResolveGeoreference w).1 = findOrCreateGeoreference w) := by
  refine ⟨?_, ?_, fun _ => rfl, ?_⟩
  · intro w s g h
    simp [ACesium3DTileset.ResolveGeoreference, h]
  · intro w w' s
    cases hG : s.Georeference with
    | some g => simp [ACesium3DTileset.ResolveGeoreference, hG]
    | none =>
      cases hR : s.ResolvedGeoreference with
      | some g => simp [ACesium3DTileset.ResolveGeoreference, hG, hR]
      | none => simp [ACesium3DTileset.ResolveGeoreference, hG, hR]
  · intro w s h1 h2
    simp [ACesium3DTileset.ResolveGeoreference, h1, h2]

/-- An example world holding no Georeference actor yet. -/
def exampleWorld : UWorld where
  firstGeoreference := none
  freshGeoreference := 11

/-- An example tileset whose `Georeference` property is set to actor 7. -/
def exampleTilesetWithGeoreference : ACesium3DTileset :=
  { ACesium3DTileset.init with Georeference := some 7 }

/-- Witness for C7 at concrete inputs. -/
theorem c7_resolve_georeference_consistent_witness :
    (exampleTilesetWithGeoreference.ResolveGeoreference exampleWorld).1 = 7 ∧
    (ACesium3DTileset.init.ResolveGeoreference
          exampleWorld).2.ResolveGeoreference exampleWorld =
      ((ACesium3DTileset.init.ResolveGeoreference exampleWorld).1,
        (ACesium3DTileset.init.ResolveGeoreference exampleWorld).2) ∧
    ACesium3DTileset.init.InvalidateResolvedGeoreference.ResolvedGeoreference =
      none ∧
    (ACesium3DTileset.init.ResolveGeoreference exampleWorld).1 =
      findOrCreateGeoreference exampleWorld :=
  ⟨c7_resolve_georeference_consistent.1 exampleWorld
      exampleTilesetWithGeoreference 7 rfl,
   c7_resolve_georeference_consistent.2.1 exampleWorld exampleWorld
      ACesium3DTileset.init,
   c7_resolve_georeference_consistent.2.2.1 ACesium3DTileset.init,
   c7_resolve_georeference_consistent.2.2.2 exampleWorld
      ACesium3DTileset.init rfl rfl⟩

/-- C8: a tile reported in `ViewUpdateResult::tilesToHideThisFrame` is not
hidden during the frame in which it is reported: it is kept in
`_tilesToHideNextFrame` and is hidden by the following frame's update. -/
theorem c8_hiding_lags_one_frame :
    ∀ (s : HideState) (r : ViewUpdateResult) (t : Nat),
      t ∈ r.tilesToHideThisFrame →
      t ∉ s.hidden →
      t ∉ s.tilesToHideNextFrame →
      (t ∉ (hideTilesFrameUpdate s r).hidden ∧
        t ∈ (hideTilesFrameUpdate s r).tilesToHideNextFrame ∧
        ∀ r' : ViewUpdateResult,
          t ∈ (hideTilesFrameUpdate (hideTilesFrameUpdate s r) r').hidden) := by
  intro s r t hmem hh hn
  refine ⟨?_, hmem, ?_⟩
  · simp [hideTilesFrameUpdate, List.mem_append, hh, hn]
  · intro r'
    simp [hideTilesFrameUpdate, List.mem_append]
    exact Or.inr (Or.inr hmem)

/-- An example hide state with nothing hidden and nothing pending. -/
def exampleHideState : HideState where
  hidden := []
  tilesToHideNextFrame := []

/-- An example view update result instructing tile 5 to be hidden. -/
def exampleViewUpdateResult : ViewUpdateResult where
  tilesToRenderThisFrame := [1, 2]
  tilesToHideThisFrame := [5]
  workerThreadTileLoadQueueLength := 0
  mainThreadTileLoadQueueLength := 0
  tilesVisited := 3
  culledTilesVisited := 0
  tilesCulled := 0
  tilesOccluded := 0
  tilesWaitingForOcclusionResults := 0
  maxDepthVisited := 2

/-- Witness for C8 at concrete inputs. -/
theorem c8_hiding_lags_one_frame_witness :
    5 ∉ (hideTilesFrameUpdate exampleHideState exampleViewUpdateResult).hidden ∧
    5 ∈ (hideTilesFrameUpdate exampleHideState
          exampleViewUpdateResult).tilesToHideNextFrame ∧
    5 ∈ (hideTilesFrameUpdate
          (hideTilesFrameUpdate exampleHideState exampleViewUpdateResult)
          exampleViewUpdateResult).hidden := by
  obtain ⟨a, b, c⟩ :=
    c8_hiding_lags_one_frame exampleHideState exampleViewUpdateResult 5
      (by decide) (by decide) (by decide)
  exact ⟨a, b, c exampleViewUpdateResult⟩

/-- C9: a default-constructed `TestPass` has `testInProgress = false`,
`startMark = 0`, `endMark = 0`, `elapsedTime = 0` and `isFastest = false`,
and the `optionalReportStep` parameter of `RunLoadTest` defaults to the
null callback. -/
theorem c9_testpass_defaults :
    TestPass.init.testInProgress = false ∧
    TestPass.init.startMark = 0 ∧
    TestPass.init.endMark = 0 ∧
    TestPass.init.elapsedTime = 0 ∧
    TestPass.init.isFastest = false ∧
    RunLoadTestDefaultOptionalReportStep = none :=
  ⟨rfl, rfl, rfl, rfl, rfl, rfl⟩

end CesiumUnreal
